import Mathlib

/-
Verification of the gemini_key_rotator worker-pool scheduler
(src/gemini_key_rotator/generator.py and utils.py).

The Python code is shallowly embedded:
- task dictionaries become association lists from string keys to a small
  value type (Dict below), with get/set/pop mirroring Python dict semantics
  (unique keys, update-in-place, append when the key is new);
- timestamps and durations (time.time floats) become rationals, passed in
  explicitly: each call attempt receives the clock value observed at its
  availability check (t0) and at the end of the remote call (t1);
- the remote generate_content call is an oracle input (ApiResult): either a
  response text together with the value parse_json_safe would produce for
  it, or a raised exception, given by its message string and the retry
  delay that extract_retry_delay would return for it;
- the asynchronous worker pool is modelled as a single worker draining the
  FIFO queue sequentially with explicit fuel; slots are never shared
  between workers in the source, and the claims under study are about the
  per-attempt routing and the accumulated results, which this sequential
  semantics captures;
- file persistence (output_file writes) and logging are external effects
  with no bearing on the claims and are not modelled; checkpoint loading
  is modelled by passing the previously loaded result list as a parameter.
-/

namespace GeminiKeyRotator

/-- Values stored in a task dictionary: Python ints, strings, booleans and
None as they occur in generator.py. -/
inductive Value where
  | vInt : ℤ → Value
  | vStr : String → Value
  | vBool : Bool → Value
  | vNull : Value
deriving DecidableEq, Repr

/-- A Python dict with string keys, as an association list with unique keys
in insertion order. -/
abbrev Dict := List (String × Value)

/-- d.get(k): the value at the first occurrence of key k. -/
def dictGet : Dict → String → Option Value
  | [], _ => none
  | (k', v) :: d, k => if k' = k then some v else dictGet d k

/-- k in d. -/
def dictContains : Dict → String → Bool
  | [], _ => false
  | (k', _) :: d, k => if k' = k then true else dictContains d k

/-- Replace the value at every occurrence of key k (dicts have unique keys,
so this is Python's in-place update). -/
def dictReplace : Dict → String → Value → Dict
  | [], _, _ => []
  | (k', v') :: d, k, v =>
    if k' = k then (k, v) :: dictReplace d k v else (k', v') :: dictReplace d k v

/-- d[k] = v: update in place when the key exists, append otherwise. -/
def dictSet (d : Dict) (k : String) (v : Value) : Dict :=
  if dictContains d k then dictReplace d k v else d ++ [(k, v)]

/-- d.pop(k, None): remove every occurrence of key k. -/
def dictPop : Dict → String → Dict
  | [], _ => []
  | (k', v') :: d, k => if k' = k then dictPop d k else (k', v') :: dictPop d k

/-- Per-slot mutable state of generator.py: last_call_time[cid],
slot_cooldown_until[cid] and slot_exhausted[cid], all initialised to
0.0 / 0.0 / False in the constructor. -/
structure SlotState where
  lastCallTime : ℚ
  cooldownUntil : ℚ
  exhausted : Bool
deriving DecidableEq, Repr

/-- The constructor's initial per-slot state. -/
def slot_init : SlotState := ⟨0, 0, false⟩

/-- GeminiGenerator._is_slot_available: false when exhausted, else
time.time() >= slot_cooldown_until. -/
def is_slot_available (s : SlotState) (now : ℚ) : Bool :=
  if s.exhausted then false else decide (s.cooldownUntil ≤ now)

/-- GeminiGenerator._is_slot_on_cooldown. -/
def is_slot_on_cooldown (s : SlotState) (now : ℚ) : Bool :=
  decide (now < s.cooldownUntil)

/-- GeminiGenerator._put_slot_on_cooldown: cooldown_until = time.time() + duration. -/
def put_slot_on_cooldown (s : SlotState) (now duration : ℚ) : SlotState :=
  { s with cooldownUntil := now + duration }

/-- GeminiGenerator._mark_slot_exhausted: slot_exhausted[cid] = True. -/
def mark_slot_exhausted (s : SlotState) : SlotState :=
  { s with exhausted := true }

/-- ASCII lowercase of one character, as str.lower() acts on the ASCII
error messages classified by _call_model. -/
def charLower (c : Char) : Char :=
  if 65 ≤ c.toNat ∧ c.toNat ≤ 90 then Char.ofNat (c.toNat + 32) else c

/-- str(e).lower() on the error message. -/
def strLower (s : String) : String := String.mk (s.data.map charLower)

/-- Python substring test: pat in s (empty pattern is contained in anything). -/
def strHas (s pat : String) : Bool :=
  s.toList.tails.any (fun t => pat.toList.isPrefixOf t)

/-- The is_permanently_exhausted test of _call_model, on the already
lowercased error message. -/
def isPermanentlyExhausted (errorMsg : String) : Bool :=
  strHas errorMsg "consumer_suspended"
    || strHas errorMsg "permission denied"
    || strHas errorMsg "api key not valid"
    || strHas errorMsg "api key expired"
    || strHas errorMsg "invalid api key"
    || strHas errorMsg "403 permission_denied"

/-- The is_rate_limit test of _call_model: a retry hint was extracted, or the
lowercased message carries a rate/quota signature. -/
def isRateLimit (retry_s : Option ℚ) (errorMsg : String) : Bool :=
  retry_s.isSome
    || strHas errorMsg "429"
    || strHas errorMsg "rate limit"
    || strHas errorMsg "quota"
    || strHas errorMsg "resource exhausted"

/-- The cooldown duration picked by _call_model on a rate-limit error:
min(retry_s, 120) if retry_s else 60.  Python truthiness: a hint of 0.0 is
falsy, so it selects the default 60 exactly like an absent hint. -/
def cooldownDuration (retry_s : Option ℚ) : ℚ :=
  match retry_s with
  | some r => if r = 0 then 60 else min r 120
  | none => 60

/-- The process-wide statistics counters of generator.py (self.stats). -/
structure Stats where
  total_requests : ℕ
  successful_requests : ℕ
  failed_requests : ℕ
  total_api_calls : ℕ
  retried_tasks : ℕ
deriving DecidableEq, Repr

/-- All counters start at zero. -/
def stats0 : Stats := ⟨0, 0, 0, 0, 0⟩

/-- What the external generate_content call does on one attempt: either a
response (with the value parse_json_safe would recover from its text, if
any), or a raised exception given by its message string and the retry delay
extract_retry_delay would compute for it. -/
inductive ApiResult where
  | ok (text : String) (parsed : Option Value)
  | err (msg : String) (retryHint : Option ℚ)
deriving DecidableEq

/-- The environment of one call attempt: the clock at the availability
check (t0), the clock when the remote call finishes or raises (t1), and the
remote call's behaviour. -/
structure CallEnv where
  t0 : ℚ
  t1 : ℚ
  api : ApiResult
deriving DecidableEq

/-- The error_type strings returned by _call_model. -/
inductive ErrorType where
  | success
  | key_issue
  | task_issue
  | skip
deriving DecidableEq, Repr

/-- Everything _call_model returns or mutates: the (response, error_type)
pair, the slot state, the stats counters and the active-call gauge. -/
structure CallResult where
  response : Option Value
  etype : ErrorType
  slot : SlotState
  stats : Stats
  active : ℤ
deriving DecidableEq, Repr

/-- GeminiGenerator._call_model.  The per-slot rate-limit sleep between the
availability check and the call mutates no state and is represented only by
the separate timestamps t0 and t1.  The active gauge is incremented before
the call and decremented in the finally block, on every exit path. -/
def call_model (parse_json : Bool) (env : CallEnv) (slot : SlotState)
    (stats : Stats) (active : ℤ) : CallResult :=
  if ¬ is_slot_available slot env.t0 then
    ⟨none, .skip, slot, stats, active⟩
  else
    let active1 := active + 1
    let stats1 := { stats with total_api_calls := stats.total_api_calls + 1 }
    match env.api with
    | .ok text parsed =>
      let slot1 := { slot with lastCallTime := env.t1 }
      if parse_json then
        match parsed with
        | some p => ⟨some p, .success, slot1, stats1, active1 - 1⟩
        | none => ⟨none, .task_issue, slot1, stats1, active1 - 1⟩
      else
        ⟨some (.vStr text), .success, slot1, stats1, active1 - 1⟩
    | .err msg hint =>
      let m := strLower msg
      let slot1 := { slot with lastCallTime := env.t1 }
      if isPermanentlyExhausted m then
        ⟨none, .key_issue, mark_slot_exhausted slot1, stats1, active1 - 1⟩
      else if isRateLimit hint m then
        ⟨none, .key_issue,
          put_slot_on_cooldown slot1 env.t1 (cooldownDuration hint), stats1,
          active1 - 1⟩
      else
        ⟨none, .task_issue, slot1, stats1, active1 - 1⟩

/-- task.get("_task_error_count", 0) as read by _worker. -/
def taskErrorCount (t : Dict) : ℤ :=
  match dictGet t "_task_error_count" with
  | some (.vInt n) => n
  | _ => 0

/-- done_ids.add(v): Python set insertion. -/
def addDone (ids : List Value) (v : Value) : List Value :=
  if v ∈ ids then ids else v :: ids

/-- The successful result_entry built by _worker:
\x7b**task, "result": response, "success": True\x7d with the internal
_task_error_count counter popped. -/
def successEntry (t : Dict) (response : Option Value) : Dict :=
  dictPop
    (dictSet (dictSet t "result" (response.getD .vNull)) "success" (.vBool true))
    "_task_error_count"

/-- The terminal failure result_entry built by _worker:
\x7b**task, "result": None, "success": False, "task_errors_attempted": cnt,
"failure_reason": "task_error"\x7d with _task_error_count popped. -/
def failureEntry (t : Dict) (cnt : ℤ) : Dict :=
  dictPop
    (dictSet
      (dictSet
        (dictSet (dictSet t "result" .vNull) "success" (.vBool false))
        "task_errors_attempted" (.vInt cnt))
      "failure_reason" (.vStr "task_error"))
    "_task_error_count"

/-- The shared state a worker loop operates on: the FIFO queue, the results
list, the done_ids set, the stats counters, its slot and the active gauge. -/
structure RunState where
  queue : List Dict
  results : List Dict
  doneIds : List Value
  stats : Stats
  slot : SlotState
  active : ℤ
deriving DecidableEq, Repr

/-- The outcome routing of _worker for one popped task, given the
(response, error_type) pair _call_model returned for it.  The task has
already been removed from the queue of rs. -/
def worker_route (maxRetriesPerTask : ℤ) (t : Dict) (response : Option Value)
    (etype : ErrorType) (rs : RunState) : RunState :=
  let task_id := dictGet t "id"
  let cnt := taskErrorCount t
  match etype with
  | .success =>
    { rs with
      results := rs.results ++ [successEntry t response]
      doneIds := match task_id with
        | some v => addDone rs.doneIds v
        | none => rs.doneIds
      stats := { rs.stats with
        successful_requests := rs.stats.successful_requests + 1
        total_requests := rs.stats.total_requests + 1 } }
  | .skip =>
    { rs with queue := rs.queue ++ [t] }
  | .key_issue =>
    { rs with
      queue := rs.queue ++ [t]
      stats := { rs.stats with retried_tasks := rs.stats.retried_tasks + 1 } }
  | .task_issue =>
    if cnt < maxRetriesPerTask then
      { rs with
        queue := rs.queue ++ [dictSet t "_task_error_count" (.vInt (cnt + 1))]
        stats := { rs.stats with retried_tasks := rs.stats.retried_tasks + 1 } }
    else
      { rs with
        results := rs.results ++ [failureEntry t cnt]
        doneIds := match task_id with
          | some v => addDone rs.doneIds v
          | none => rs.doneIds
        stats := { rs.stats with
          failed_requests := rs.stats.failed_requests + 1
          total_requests := rs.stats.total_requests + 1 } }

/-- The worker loop draining the queue: pop the head task, run _call_model
with the k-th attempt's environment, route the outcome, repeat.  Fuel bounds
the number of attempts; the loop also stops once the queue is empty, which
is when queue.join() returns and the sentinel shuts the worker down. -/
def run_worker (maxRetriesPerTask : ℤ) (parse_json : Bool)
    (envs : ℕ → CallEnv) : ℕ → ℕ → RunState → RunState
  | 0, _, rs => rs
  | fuel + 1, k, rs =>
    match rs.queue with
    | [] => rs
    | t :: rest =>
      let c := call_model parse_json (envs k) rs.slot rs.stats rs.active
      run_worker maxRetriesPerTask parse_json envs fuel (k + 1)
        (worker_route maxRetriesPerTask t c.response c.etype
          { rs with
            queue := rest
            slot := c.slot
            stats := c.stats
            active := c.active })

/-- A submitted task of generate_batch: bare prompt text or a metadata
mapping. -/
inductive TaskIn where
  | txt (s : String)
  | dict (d : Dict)
deriving DecidableEq, Repr

/-- One iteration of the task-preparation loop of generate_batch: a string
becomes \x7bid_key: i, prompt_key: s\x7d, a mapping is copied and given the
ordinal id i when id_key is absent. -/
def prepare_task (id_key prompt_key : String) (i : ℕ) : TaskIn → Dict
  | .txt s => [(id_key, .vInt i), (prompt_key, .vStr s)]
  | .dict d => if dictContains d id_key then d else dictSet d id_key (.vInt i)

/-- done_ids as reconstructed from the loaded checkpoint:
\x7br.get(id_key) for r in results if id_key in r\x7d. -/
def done_ids_of (id_key : String) (results : List Dict) : List Value :=
  results.filterMap (fun r => dictGet r id_key)

/-- The task-preparation loop of generate_batch, enumerating from index n:
prepared tasks whose id is already in done_ids are skipped. -/
def prepare_list (id_key prompt_key : String) (doneIds : List Value) :
    ℕ → List TaskIn → List Dict
  | _, [] => []
  | n, t :: ts =>
    let d := prepare_task id_key prompt_key n t
    (if (match dictGet d id_key with
          | some v => decide (v ∉ doneIds)
          | none => true) then [d] else [])
      ++ prepare_list id_key prompt_key doneIds (n + 1) ts

/-- The full task_list of generate_batch. -/
def prepare_tasks (id_key prompt_key : String) (doneIds : List Value)
    (tasks : List TaskIn) : List Dict :=
  prepare_list id_key prompt_key doneIds 0 tasks

/-- GeminiGenerator.generate_batch: load prior results (passed in as the
list decoded from output_file, empty when absent), rebuild done_ids, seed
the queue with the un-completed prepared tasks, return early when the queue
would be empty, otherwise drain the queue and return the accumulated
state. -/
def generate_batch (parse_json : Bool) (id_key prompt_key : String)
    (maxRetriesPerTask : ℤ) (envs : ℕ → CallEnv) (fuel : ℕ)
    (prior : List Dict) (tasks : List TaskIn) : RunState :=
  let doneIds := done_ids_of id_key prior
  let task_list := prepare_tasks id_key prompt_key doneIds tasks
  let rs0 : RunState := ⟨task_list, prior, doneIds, stats0, slot_init, 0⟩
  if task_list.isEmpty then rs0
  else run_worker maxRetriesPerTask parse_json envs fuel 0 rs0

/-- The generator-level state seen by generate_single: the slot pool plus
the shared counters. -/
structure GenState where
  slots : List SlotState
  stats : Stats
  active : ℤ
deriving DecidableEq, Repr

/-- GeminiGenerator.generate_single: one _call_model on clients[0], the
error_type discarded, the response returned as is.  The constructor
guarantees at least one slot; with an empty pool the model returns None
untouched where the source would raise IndexError. -/
def generate_single (parse_json : Bool) (env : CallEnv) (g : GenState) :
    Option Value × GenState :=
  match g.slots with
  | [] => (none, g)
  | s0 :: rest =>
    let c := call_model parse_json env s0 g.stats g.active
    (c.response, ⟨c.slot :: rest, c.stats, c.active⟩)

/-- An attempt environment whose remote call raises an error that is
neither a permanent-exhaustion nor a rate-limit signature, so _call_model
classifies it as task_issue. -/
def taskIssueEnv : CallEnv := ⟨0, 0, .err "boom" none⟩

/-- An attempt environment whose remote call succeeds with text "ok". -/
def okEnv : CallEnv := ⟨0, 0, .ok "ok" none⟩

/-- The task dict after k task-error requeues of a task submitted without a
_task_error_count field. -/
def bumped (t : Dict) (k : ℕ) : Dict :=
  if k = 0 then t else dictSet t "_task_error_count" (.vInt k)

/-- A worker run in which every call attempt yields a task-kind failure,
given maxRetriesPerTask + 1 attempts of fuel, starting from a queue holding
just the task t. -/
def only_task_issues_run (maxRetriesPerTask : ℕ) (t : Dict) : RunState :=
  run_worker (maxRetriesPerTask : ℤ) false (fun _ => taskIssueEnv)
    (maxRetriesPerTask + 1) 0 ⟨[t], [], [], stats0, slot_init, 0⟩

/-- The "id" fields of a list of task dicts or result records, in order,
skipping entries without an "id" key. -/
def idsOf (l : List Dict) : List Value :=
  l.filterMap (fun d => dictGet d "id")

/-- A loaded checkpoint holding completed records for task ids 1 and 2. -/
def priorExample : List Dict :=
  [[("id", .vInt 1), ("result", .vStr "r1"), ("success", .vBool true)],
   [("id", .vInt 2), ("result", .vStr "r2"), ("success", .vBool true)]]

/-- A batch submission with task ids 1, 2 and 3. -/
def tasksExample : List TaskIn :=
  [.dict [("id", .vInt 1), ("prompt", .vStr "p1")],
   .dict [("id", .vInt 2), ("prompt", .vStr "p2")],
   .dict [("id", .vInt 3), ("prompt", .vStr "p3")]]

theorem dictContains_eq_isSome (d : Dict) (k : String) :
    dictContains d k = (dictGet d k).isSome := by
  induction d with
  | nil => rfl
  | cons p d ih =>
    obtain ⟨k', v⟩ := p
    by_cases h : k' = k <;> simp [dictGet, dictContains, h, ih]

theorem dictGet_append_of_not_contains (d₁ d₂ : Dict) (k : String)
    (h : dictContains d₁ k = false) : dictGet (d₁ ++ d₂) k = dictGet d₂ k := by
  induction d₁ with
  | nil => rfl
  | cons p d ih =>
    obtain ⟨k', v⟩ := p
    by_cases hk : k' = k
    · simp [dictContains, hk] at h
    · simp only [dictContains, if_neg hk] at h
      simp [dictGet, hk, ih h]

theorem dictContains_append (d₁ d₂ : Dict) (k : String) :
    dictContains (d₁ ++ d₂) k = (dictContains d₁ k || dictContains d₂ k) := by
  induction d₁ with
  | nil => rfl
  | cons p d ih =>
    obtain ⟨k', v⟩ := p
    by_cases hk : k' = k <;> simp [dictContains, hk, ih]

theorem dictGet_replace_self (d : Dict) (k : String) (v : Value)
    (h : dictContains d k = true) : dictGet (dictReplace d k v) k = some v := by
  induction d with
  | nil => simp [dictContains] at h
  | cons p d ih =>
    obtain ⟨k', v'⟩ := p
    by_cases hk : k' = k
    · simp [dictReplace, hk, dictGet]
    · simp only [dictContains, if_neg hk] at h
      simp [dictReplace, hk, dictGet, ih h]

theorem dictGet_replace_ne (d : Dict) (k k' : String) (v : Value)
    (h : k' ≠ k) : dictGet (dictReplace d k v) k' = dictGet d k' := by
  induction d with
  | nil => rfl
  | cons p d ih =>
    obtain ⟨k₀, v₀⟩ := p
    by_cases hk : k₀ = k
    · have h1 : ¬(k = k') := fun hh => h hh.symm
      have h2 : ¬(k₀ = k') := by rw [hk]; exact h1
      simp [dictReplace, dictGet, hk, h1, h2, ih]
    · simp [dictReplace, dictGet, hk, ih]

theorem dictContains_replace (d : Dict) (k : String) (v : Value) :
    dictContains (dictReplace d k v) k = dictContains d k := by
  induction d with
  | nil => rfl
  | cons p d ih =>
    obtain ⟨k', v'⟩ := p
    by_cases hk : k' = k <;> simp [dictReplace, dictContains, hk, ih]

theorem dictReplace_of_not_contains (d : Dict) (k : String) (v : Value)
    (h : dictContains d k = false) : dictReplace d k v = d := by
  induction d with
  | nil => rfl
  | cons p d ih =>
    obtain ⟨k', v'⟩ := p
    by_cases hk : k' = k
    · simp [dictContains, hk] at h
    · simp only [dictContains, if_neg hk] at h
      simp [dictReplace, hk, ih h]

theorem dictReplace_append (d₁ d₂ : Dict) (k : String) (v : Value) :
    dictReplace (d₁ ++ d₂) k v = dictReplace d₁ k v ++ dictReplace d₂ k v := by
  induction d₁ with
  | nil => rfl
  | cons p d ih =>
    obtain ⟨k', v'⟩ := p
    by_cases hk : k' = k <;> simp [dictReplace, hk, ih]

theorem dictReplace_replace (d : Dict) (k : String) (v w : Value) :
    dictReplace (dictReplace d k v) k w = dictReplace d k w := by
  induction d with
  | nil => rfl
  | cons p d ih =>
    obtain ⟨k', v'⟩ := p
    by_cases hk : k' = k <;> simp [dictReplace, hk, ih]

theorem dictGet_dictSet_self (d : Dict) (k : String) (v : Value) :
    dictGet (dictSet d k v) k = some v := by
  unfold dictSet
  by_cases h : dictContains d k
  · simp [h, dictGet_replace_self d k v h]
  · simp only [Bool.not_eq_true] at h
    simp [h, dictGet_append_of_not_contains d _ k h, dictGet]

theorem dictGet_append_singleton_ne (d : Dict) (k k' : String) (v : Value)
    (h : k' ≠ k) : dictGet (d ++ [(k, v)]) k' = dictGet d k' := by
  induction d with
  | nil =>
    have h1 : ¬(k = k') := fun hh => h hh.symm
    simp [dictGet, h1]
  | cons p d ih =>
    obtain ⟨k₀, v₀⟩ := p
    simp [dictGet, ih]

theorem dictGet_dictSet_ne (d : Dict) (k k' : String) (v : Value) (h : k' ≠ k) :
    dictGet (dictSet d k v) k' = dictGet d k' := by
  unfold dictSet
  by_cases hc : dictContains d k
  · simp [hc, dictGet_replace_ne d k k' v h]
  · simp only [Bool.not_eq_true] at hc
    simp [hc, dictGet_append_singleton_ne d k k' v h]

theorem dictSet_dictSet_self (d : Dict) (k : String) (v w : Value) :
    dictSet (dictSet d k v) k w = dictSet d k w := by
  unfold dictSet
  by_cases h : dictContains d k
  · simp [h, dictContains_replace, dictReplace_replace]
  · simp only [Bool.not_eq_true] at h
    simp [h, dictContains_append, dictContains, dictReplace_append,
      dictReplace_of_not_contains d k w h, dictReplace]

theorem dictGet_dictPop_self (d : Dict) (k : String) :
    dictGet (dictPop d k) k = none := by
  induction d with
  | nil => rfl
  | cons p d ih =>
    obtain ⟨k', v⟩ := p
    by_cases hk : k' = k <;> simp [dictPop, dictGet, hk, ih]

theorem dictGet_dictPop_ne (d : Dict) (k k' : String) (h : k' ≠ k) :
    dictGet (dictPop d k) k' = dictGet d k' := by
  induction d with
  | nil => rfl
  | cons p d ih =>
    obtain ⟨k₀, v⟩ := p
    by_cases hk : k₀ = k
    · have h1 : ¬(k = k') := fun hh => h hh.symm
      have h2 : ¬(k₀ = k') := by rw [hk]; exact h1
      simp [dictPop, dictGet, hk, h1, h2, ih]
    · simp [dictPop, dictGet, hk, ih]


theorem call_model_skip_of_unavailable (parse_json : Bool) (env : CallEnv)
    (slot : SlotState) (stats : Stats) (active : ℤ)
    (h : is_slot_available slot env.t0 = false) :
    call_model parse_json env slot stats active =
      ⟨none, .skip, slot, stats, active⟩ := by
  unfold call_model
  simp [h]

theorem exhausted_unavailable (s : SlotState) (now : ℚ) (h : s.exhausted = true) :
    is_slot_available s now = false := by
  simp [is_slot_available, h]

theorem worker_route_slot_active (maxR : ℤ) (t : Dict) (r : Option Value)
    (e : ErrorType) (rs : RunState) :
    (worker_route maxR t r e rs).slot = rs.slot ∧
    (worker_route maxR t r e rs).active = rs.active := by
  cases e with
  | success => exact ⟨rfl, rfl⟩
  | key_issue => exact ⟨rfl, rfl⟩
  | skip => exact ⟨rfl, rfl⟩
  | task_issue =>
    by_cases h : taskErrorCount t < maxR <;> simp [worker_route, h]

theorem run_worker_exhausted_mono (maxR : ℤ) (pj : Bool) (envs : ℕ → CallEnv) :
    ∀ (fuel k : ℕ) (rs : RunState), rs.slot.exhausted = true →
      (run_worker maxR pj envs fuel k rs).slot.exhausted = true := by
  intro fuel
  induction fuel with
  | zero => intro k rs h; exact h
  | succ n ih =>
    intro k rs h
    obtain ⟨q, res, dids, st, sl, ac⟩ := rs
    cases q with
    | nil => exact h
    | cons t rest =>
      have hb := call_model_skip_of_unavailable pj (envs k) sl st ac
        (exhausted_unavailable _ _ h)
      simp only [run_worker, hb]
      apply ih
      rw [(worker_route_slot_active maxR t none ErrorType.skip _).1]
      exact h

/-- C8: when the slot is unavailable (exhausted or still on cooldown) at the
availability check, _call_model returns the Skip outcome at once and leaves
the slot state, the stats counters and the active-call gauge untouched; in
particular total_api_calls does not move, so no remote call is performed. -/
theorem c8_skip_frame (parse_json : Bool) (env : CallEnv) (slot : SlotState)
    (stats : Stats) (active : ℤ)
    (h : is_slot_available slot env.t0 = false) :
    call_model parse_json env slot stats active =
      ⟨none, .skip, slot, stats, active⟩ :=
  call_model_skip_of_unavailable parse_json env slot stats active h

/-- Witness for C8 at a slot whose cooldown lies in the future. -/
theorem c8_skip_frame_witness :
    is_slot_available ⟨0, 100, false⟩ 0 = false ∧
    call_model false ⟨0, 7, .ok "x" none⟩ ⟨0, 100, false⟩ stats0 3 =
      ⟨none, .skip, ⟨0, 100, false⟩, stats0, 3⟩ :=
  ⟨by decide,
   c8_skip_frame false ⟨0, 7, .ok "x" none⟩ ⟨0, 100, false⟩ stats0 3 (by decide)⟩

/-- C2: on a transport/API error raised during a call on an available slot,
_call_model stamps the slot's last-call time with the current time and
classifies the error into exactly one outcome: a permanent-exhaustion
signature in the lowercased message marks the slot exhausted and yields
KeyIssue; otherwise an extracted retry hint or a rate/quota signature puts
the slot on cooldown and yields KeyIssue; otherwise TaskIssue with no slot
mutation beyond the timestamp. -/
theorem c2_error_classification (parse_json : Bool) (env : CallEnv)
    (slot : SlotState) (stats : Stats) (active : ℤ) (msg : String)
    (hint : Option ℚ) (havail : is_slot_available slot env.t0 = true)
    (herr : env.api = .err msg hint) :
    (call_model parse_json env slot stats active).slot.lastCallTime = env.t1 ∧
    (isPermanentlyExhausted (strLower msg) = true →
      (call_model parse_json env slot stats active).etype = .key_issue ∧
      (call_model parse_json env slot stats active).slot.exhausted = true) ∧
    (isPermanentlyExhausted (strLower msg) = false →
      isRateLimit hint (strLower msg) = true →
      (call_model parse_json env slot stats active).etype = .key_issue ∧
      (call_model parse_json env slot stats active).slot.cooldownUntil =
        env.t1 + cooldownDuration hint ∧
      (call_model parse_json env slot stats active).slot.exhausted =
        slot.exhausted) ∧
    (isPermanentlyExhausted (strLower msg) = false →
      isRateLimit hint (strLower msg) = false →
      (call_model parse_json env slot stats active).etype = .task_issue ∧
      (call_model parse_json env slot stats active).slot =
        { slot with lastCallTime := env.t1 }) := by
  unfold call_model
  rw [herr]
  by_cases h1 : isPermanentlyExhausted (strLower msg) = true
  · simp [havail, h1, mark_slot_exhausted]
  · by_cases h2 : isRateLimit hint (strLower msg) = true <;>
      simp [havail, h1, h2, put_slot_on_cooldown]

/-- Witness for C2 on an expired-key error message. -/
theorem c2_error_classification_witness :
    is_slot_available slot_init 0 = true ∧
    isPermanentlyExhausted (strLower "API key expired") = true ∧
    (call_model false ⟨0, 5, .err "API key expired" none⟩ slot_init stats0
        0).etype = .key_issue ∧
    (call_model false ⟨0, 5, .err "API key expired" none⟩ slot_init stats0
        0).slot.exhausted = true :=
  ⟨by decide, by decide,
   ((c2_error_classification false ⟨0, 5, .err "API key expired" none⟩
      slot_init stats0 0 "API key expired" none (by decide) rfl).2.1
      (by decide)).1,
   ((c2_error_classification false ⟨0, 5, .err "API key expired" none⟩
      slot_init stats0 0 "API key expired" none (by decide) rfl).2.1
      (by decide)).2⟩

/-- C4 counterexample: an error classified as a rate limit because a retry
hint of 0 was extracted gets the fixed default cooldown 60, not
min(0, 120) = 0 as the claim states for every extracted hint: the slot's
cooldown expiry becomes t1 + 60 = 70, not t1 + min(0, 120) = 10. -/
theorem c4_counterexample :
    isRateLimit (some 0) (strLower "429") = true ∧
    (call_model false ⟨0, 10, .err "429" (some 0)⟩ slot_init stats0
        0).etype = .key_issue ∧
    (call_model false ⟨0, 10, .err "429" (some 0)⟩ slot_init stats0
        0).slot.cooldownUntil = 70 ∧
    ¬ (70 : ℚ) = 10 + min 0 120 := by
  have h0 : is_slot_available slot_init 0 = true := by decide
  have h1 : isPermanentlyExhausted (strLower "429") = false := by decide
  have h2 : isRateLimit (some 0) (strLower "429") = true := by decide
  refine ⟨h2, ?_, ?_, by norm_num⟩ <;>
    simp [call_model, h0, h1, h2, put_slot_on_cooldown, cooldownDuration]
  norm_num

/-- C4 amended: on a rate-limit-classified error the cooldown duration is
min(hint, 120) when a nonzero retry hint was extracted, and the fixed
default 60 when no hint was extracted or the extracted hint is 0 (Python
float truthiness); in particular no hint gives 60 and hint 200 gives 120,
and _call_model sets the slot's cooldown expiry to the error time plus that
duration. -/
theorem c4_cooldown_duration (r : ℚ) (parse_json : Bool) (env : CallEnv)
    (slot : SlotState) (stats : Stats) (active : ℤ) (msg : String)
    (hint : Option ℚ) :
    cooldownDuration none = 60 ∧
    (r ≠ 0 → cooldownDuration (some r) = min r 120) ∧
    cooldownDuration (some 0) = 60 ∧
    cooldownDuration (some 200) = 120 ∧
    (is_slot_available slot env.t0 = true → env.api = .err msg hint →
      isPermanentlyExhausted (strLower msg) = false →
      isRateLimit hint (strLower msg) = true →
      (call_model parse_json env slot stats active).slot.cooldownUntil =
        env.t1 + cooldownDuration hint) := by
  refine ⟨rfl, ?_, by norm_num [cooldownDuration], ?_, ?_⟩
  · intro hr
    simp [cooldownDuration, hr]
  · norm_num [cooldownDuration, min_def]
  · intro havail herr h1 h2
    unfold call_model
    rw [herr]
    simp [havail, h1, h2, put_slot_on_cooldown]

/-- Witness for C4 at hint 200 and at an unhinted quota error. -/
theorem c4_cooldown_duration_witness :
    ((200 : ℚ) ≠ 0 ∧ cooldownDuration (some 200) = min 200 120) ∧
    (call_model false ⟨0, 10, .err "quota exceeded" none⟩ slot_init stats0
        0).slot.cooldownUntil = 10 + cooldownDuration none :=
  ⟨⟨by norm_num,
    (c4_cooldown_duration 200 false okEnv slot_init stats0 0 "x" none).2.1
      (by norm_num)⟩,
   (c4_cooldown_duration 200 false ⟨0, 10, .err "quota exceeded" none⟩
      slot_init stats0 0 "quota exceeded" none).2.2.2.2 (by decide) rfl
      (by decide) (by decide)⟩

/-- C3: the exhausted flag is monotonic: marking sets it permanently, a
cooldown application never touches it, an exhausted slot is never available
at any time, every _call_model on an exhausted slot returns Skip and leaves
the whole state unchanged, and a worker run never clears the flag. -/
theorem c3_exhausted_monotonic :
    (∀ s : SlotState, (mark_slot_exhausted s).exhausted = true) ∧
    (∀ (s : SlotState) (now d : ℚ),
      (put_slot_on_cooldown s now d).exhausted = s.exhausted) ∧
    (∀ (s : SlotState) (now : ℚ), s.exhausted = true →
      is_slot_available s now = false) ∧
    (∀ (parse_json : Bool) (env : CallEnv) (s : SlotState) (stats : Stats)
      (active : ℤ), s.exhausted = true →
      call_model parse_json env s stats active =
        ⟨none, .skip, s, stats, active⟩) ∧
    (∀ (maxR : ℤ) (parse_json : Bool) (envs : ℕ → CallEnv) (fuel k : ℕ)
      (rs : RunState), rs.slot.exhausted = true →
      (run_worker maxR parse_json envs fuel k rs).slot.exhausted = true) := by
  refine ⟨fun s => rfl, fun s now d => rfl, exhausted_unavailable, ?_, ?_⟩
  · intro pj env s stats active h
    exact call_model_skip_of_unavailable pj env s stats active
      (exhausted_unavailable s env.t0 h)
  · intro maxR pj envs fuel k rs h
    exact run_worker_exhausted_mono maxR pj envs fuel k rs h

/-- Witness for C3 on a concrete exhausted slot. -/
theorem c3_exhausted_monotonic_witness :
    (⟨0, 0, true⟩ : SlotState).exhausted = true ∧
    is_slot_available ⟨0, 0, true⟩ 1000 = false ∧
    call_model false ⟨1000, 1001, .ok "x" none⟩ ⟨0, 0, true⟩ stats0 0 =
      ⟨none, .skip, ⟨0, 0, true⟩, stats0, 0⟩ :=
  ⟨rfl,
   c3_exhausted_monotonic.2.2.1 ⟨0, 0, true⟩ 1000 rfl,
   c3_exhausted_monotonic.2.2.2.1 false ⟨1000, 1001, .ok "x" none⟩
     ⟨0, 0, true⟩ stats0 0 rfl⟩

/-- C5: on a KeyIssue outcome the worker requeues the task itself, with its
_task_error_count field untouched, and increments retried_tasks; iterating
any number n of KeyIssue routings leaves the results list (and every other
state component) unchanged, so a task seeing only key-level issues is never
recorded as a failure, however many such outcomes occur. -/
theorem c5_key_issue_unbounded (maxR : ℤ) (t : Dict) (r : Option Value)
    (rs : RunState) (n : ℕ) :
    worker_route maxR t r .key_issue rs =
      { rs with
        queue := rs.queue ++ [t]
        stats := { rs.stats with
          retried_tasks := rs.stats.retried_tasks + 1 } } ∧
    (fun s => worker_route maxR t r .key_issue s)^[n] rs =
      { rs with
        queue := rs.queue ++ List.replicate n t
        stats := { rs.stats with
          retried_tasks := rs.stats.retried_tasks + n } } := by
  constructor
  · rfl
  · induction n generalizing rs with
    | zero => simp
    | succ m ih =>
      rw [Function.iterate_succ_apply, ih]
      simp [worker_route, List.replicate_succ]
      omega

theorem successEntry_no_counter (t : Dict) (r : Option Value) :
    dictGet (successEntry t r) "_task_error_count" = none := by
  unfold successEntry
  exact dictGet_dictPop_self _ _

theorem successEntry_result (t : Dict) (r : Option Value) :
    dictGet (successEntry t r) "result" = some (r.getD .vNull) := by
  unfold successEntry
  rw [dictGet_dictPop_ne _ _ _ (by decide), dictGet_dictSet_ne _ _ _ _ (by decide),
    dictGet_dictSet_self]

theorem successEntry_success (t : Dict) (r : Option Value) :
    dictGet (successEntry t r) "success" = some (.vBool true) := by
  unfold successEntry
  rw [dictGet_dictPop_ne _ _ _ (by decide), dictGet_dictSet_self]

theorem successEntry_get (t : Dict) (r : Option Value) (k : String)
    (h1 : k ≠ "_task_error_count") (h2 : k ≠ "result") (h3 : k ≠ "success") :
    dictGet (successEntry t r) k = dictGet t k := by
  unfold successEntry
  rw [dictGet_dictPop_ne _ _ _ h1, dictGet_dictSet_ne _ _ _ _ h3,
    dictGet_dictSet_ne _ _ _ _ h2]

theorem failureEntry_no_counter (t : Dict) (cnt : ℤ) :
    dictGet (failureEntry t cnt) "_task_error_count" = none := by
  unfold failureEntry
  exact dictGet_dictPop_self _ _

theorem failureEntry_result (t : Dict) (cnt : ℤ) :
    dictGet (failureEntry t cnt) "result" = some .vNull := by
  unfold failureEntry
  rw [dictGet_dictPop_ne _ _ _ (by decide), dictGet_dictSet_ne _ _ _ _ (by decide),
    dictGet_dictSet_ne _ _ _ _ (by decide), dictGet_dictSet_ne _ _ _ _ (by decide),
    dictGet_dictSet_self]

theorem failureEntry_success (t : Dict) (cnt : ℤ) :
    dictGet (failureEntry t cnt) "success" = some (.vBool false) := by
  unfold failureEntry
  rw [dictGet_dictPop_ne _ _ _ (by decide), dictGet_dictSet_ne _ _ _ _ (by decide),
    dictGet_dictSet_ne _ _ _ _ (by decide), dictGet_dictSet_self]

theorem failureEntry_attempted (t : Dict) (cnt : ℤ) :
    dictGet (failureEntry t cnt) "task_errors_attempted" = some (.vInt cnt) := by
  unfold failureEntry
  rw [dictGet_dictPop_ne _ _ _ (by decide), dictGet_dictSet_ne _ _ _ _ (by decide),
    dictGet_dictSet_self]

theorem failureEntry_reason (t : Dict) (cnt : ℤ) :
    dictGet (failureEntry t cnt) "failure_reason" = some (.vStr "task_error") := by
  unfold failureEntry
  rw [dictGet_dictPop_ne _ _ _ (by decide), dictGet_dictSet_self]

theorem failureEntry_get (t : Dict) (cnt : ℤ) (k : String)
    (h1 : k ≠ "_task_error_count") (h2 : k ≠ "result") (h3 : k ≠ "success")
    (h4 : k ≠ "task_errors_attempted") (h5 : k ≠ "failure_reason") :
    dictGet (failureEntry t cnt) k = dictGet t k := by
  unfold failureEntry
  rw [dictGet_dictPop_ne _ _ _ h1, dictGet_dictSet_ne _ _ _ _ h5,
    dictGet_dictSet_ne _ _ _ _ h4, dictGet_dictSet_ne _ _ _ _ h3,
    dictGet_dictSet_ne _ _ _ _ h2]

/-- C9 counterexample: a task carrying its own "result" field does not keep
it verbatim in the appended record: the success entry overwrites it with
the call's response, so a non-internal field of the original mapping is
lost, contrary to the claim that every field other than _task_error_count
is preserved. -/
theorem c9_counterexample :
    (worker_route 5 [("id", .vInt 0), ("result", .vStr "x")]
        (some (.vStr "y")) .success ⟨[], [], [], stats0, slot_init, 0⟩).results =
      [[("id", .vInt 0), ("result", .vStr "y"), ("success", .vBool true)]] ∧
    dictGet [("id", .vInt 0), ("result", .vStr "x")] "result" =
      some (.vStr "x") ∧
    ¬ some (Value.vStr "y") = some (Value.vStr "x") := by
  decide

/-- C9 amended: every appended ResultRecord (success or failure) contains no
_task_error_count field; every field of the original task other than
_task_error_count and the written fields result and success (and, on
failure, task_errors_attempted and failure_reason) is preserved verbatim;
the written fields carry the documented values, overwriting any
identically-named fields of the original task. -/
theorem c9_record_fields (t : Dict) (r : Option Value) (cnt : ℤ) (k : String) :
    dictGet (successEntry t r) "_task_error_count" = none ∧
    dictGet (failureEntry t cnt) "_task_error_count" = none ∧
    dictGet (successEntry t r) "result" = some (r.getD .vNull) ∧
    dictGet (successEntry t r) "success" = some (.vBool true) ∧
    dictGet (failureEntry t cnt) "result" = some .vNull ∧
    dictGet (failureEntry t cnt) "success" = some (.vBool false) ∧
    dictGet (failureEntry t cnt) "task_errors_attempted" = some (.vInt cnt) ∧
    dictGet (failureEntry t cnt) "failure_reason" = some (.vStr "task_error") ∧
    (k ≠ "_task_error_count" → k ≠ "result" → k ≠ "success" →
      dictGet (successEntry t r) k = dictGet t k) ∧
    (k ≠ "_task_error_count" → k ≠ "result" → k ≠ "success" →
      k ≠ "task_errors_attempted" → k ≠ "failure_reason" →
      dictGet (failureEntry t cnt) k = dictGet t k) :=
  ⟨successEntry_no_counter t r, failureEntry_no_counter t cnt,
   successEntry_result t r, successEntry_success t r,
   failureEntry_result t cnt, failureEntry_success t cnt,
   failureEntry_attempted t cnt, failureEntry_reason t cnt,
   fun h1 h2 h3 => successEntry_get t r k h1 h2 h3,
   fun h1 h2 h3 h4 h5 => failureEntry_get t cnt k h1 h2 h3 h4 h5⟩

/-- Witness for C9 on the prompt field of a concrete task. -/
theorem c9_record_fields_witness :
    dictGet (successEntry [("id", .vInt 1), ("prompt", .vStr "p"),
        ("_task_error_count", .vInt 2)] (some (.vStr "out")))
      "_task_error_count" = none ∧
    dictGet (successEntry [("id", .vInt 1), ("prompt", .vStr "p"),
        ("_task_error_count", .vInt 2)] (some (.vStr "out"))) "prompt" =
      dictGet [("id", .vInt 1), ("prompt", .vStr "p"),
        ("_task_error_count", .vInt 2)] "prompt" :=
  ⟨(c9_record_fields [("id", .vInt 1), ("prompt", .vStr "p"),
      ("_task_error_count", .vInt 2)] (some (.vStr "out")) 0 "prompt").1,
   (c9_record_fields [("id", .vInt 1), ("prompt", .vStr "p"),
      ("_task_error_count", .vInt 2)] (some (.vStr "out")) 0
      "prompt").2.2.2.2.2.2.2.2.1 (by decide) (by decide) (by decide)⟩

theorem call_model_none_of_not_success (pj : Bool) (env : CallEnv)
    (s : SlotState) (st : Stats) (a : ℤ) :
    (call_model pj env s st a).etype = .success ∨
    (call_model pj env s st a).response = none := by
  by_cases h : is_slot_available s env.t0 = true
  · unfold call_model
    rcases henv : env.api with ⟨text, parsed⟩ | ⟨msg, hint⟩
    · cases pj
      · simp [h]
      · cases parsed <;> simp [h]
    · by_cases h1 : isPermanentlyExhausted (strLower msg) = true
      · simp [h, h1]
      · by_cases h2 : isRateLimit hint (strLower msg) = true <;>
          simp [h, h1, h2]
  · right
    rw [call_model_skip_of_unavailable pj env s st a (by simpa using h)]

theorem call_model_api_calls (pj : Bool) (env : CallEnv) (s : SlotState)
    (st : Stats) (a : ℤ) :
    (call_model pj env s st a).stats.total_api_calls = st.total_api_calls ∨
    (call_model pj env s st a).stats.total_api_calls =
      st.total_api_calls + 1 := by
  by_cases h : is_slot_available s env.t0 = true
  · right
    unfold call_model
    rcases henv : env.api with ⟨text, parsed⟩ | ⟨msg, hint⟩
    · cases pj
      · simp [h]
      · cases parsed <;> simp [h]
    · by_cases h1 : isPermanentlyExhausted (strLower msg) = true
      · simp [h, h1]
      · by_cases h2 : isRateLimit hint (strLower msg) = true <;>
          simp [h, h1, h2]
  · left
    rw [call_model_skip_of_unavailable pj env s st a (by simpa using h)]

/-- C10: generate_single always calls on slot 0, leaves every other slot
untouched, performs at most one call attempt (total_api_calls moves by at
most one and there is no retry or requeue), discards the outcome
classification and returns exactly the response, which is None whenever the
outcome is not Success; in particular when slot 0 is on cooldown or
exhausted the single attempt is a Skip, None is returned and the state is
unchanged, with no exception escaping. -/
theorem c10_generate_single (parse_json : Bool) (env : CallEnv) (g : GenState)
    (s0 : SlotState) (rest : List SlotState) (h : g.slots = s0 :: rest) :
    (generate_single parse_json env g).1 =
      (call_model parse_json env s0 g.stats g.active).response ∧
    (generate_single parse_json env g).2.slots =
      (call_model parse_json env s0 g.stats g.active).slot :: rest ∧
    ((call_model parse_json env s0 g.stats g.active).etype ≠ .success →
      (generate_single parse_json env g).1 = none) ∧
    ((call_model parse_json env s0 g.stats g.active).stats.total_api_calls =
        g.stats.total_api_calls ∨
      (call_model parse_json env s0 g.stats g.active).stats.total_api_calls =
        g.stats.total_api_calls + 1) ∧
    (is_slot_available s0 env.t0 = false →
      (call_model parse_json env s0 g.stats g.active).etype = .skip ∧
      (generate_single parse_json env g).1 = none ∧
      (generate_single parse_json env g).2 = g) := by
  obtain ⟨slots, stats, active⟩ := g
  simp only at h
  subst h
  simp only [generate_single]
  refine ⟨trivial, trivial, ?_, call_model_api_calls parse_json env s0 stats
    active, ?_⟩
  · intro hne
    rcases call_model_none_of_not_success parse_json env s0 stats active with
      hs | hn
    · exact absurd hs hne
    · exact hn
  · intro hun
    rw [call_model_skip_of_unavailable parse_json env s0 stats active hun]
    exact ⟨rfl, rfl, rfl⟩

/-- Witness for C10 on a one-slot pool whose slot is on cooldown. -/
theorem c10_generate_single_witness :
    is_slot_available ⟨0, 50, false⟩ 0 = false ∧
    (generate_single false ⟨0, 1, .ok "x" none⟩
        ⟨[⟨0, 50, false⟩], stats0, 0⟩).1 = none ∧
    (generate_single false ⟨0, 1, .ok "x" none⟩
        ⟨[⟨0, 50, false⟩], stats0, 0⟩).2 = ⟨[⟨0, 50, false⟩], stats0, 0⟩ :=
  ⟨by decide,
   ((c10_generate_single false ⟨0, 1, .ok "x" none⟩
      ⟨[⟨0, 50, false⟩], stats0, 0⟩ ⟨0, 50, false⟩ [] rfl).2.2.2.2
      (by decide)).2.1,
   ((c10_generate_single false ⟨0, 1, .ok "x" none⟩
      ⟨[⟨0, 50, false⟩], stats0, 0⟩ ⟨0, 50, false⟩ [] rfl).2.2.2.2
      (by decide)).2.2⟩

theorem call_model_taskIssueEnv (st : Stats) (a : ℤ) :
    call_model false taskIssueEnv slot_init st a =
      ⟨none, .task_issue, slot_init,
        { st with total_api_calls := st.total_api_calls + 1 }, a⟩ := by
  have h0 : is_slot_available slot_init 0 = true := by decide
  have h1 : isPermanentlyExhausted (strLower "boom") = false := by decide
  have h2 : isRateLimit none (strLower "boom") = false := by decide
  simp [call_model, taskIssueEnv, h0, h1, h2]
  rfl

theorem taskErrorCount_bumped (t : Dict)
    (ht : dictGet t "_task_error_count" = none) (k : ℕ) :
    taskErrorCount (bumped t k) = (k : ℤ) := by
  unfold bumped
  by_cases hk : k = 0
  · simp [hk, taskErrorCount, ht]
  · simp [hk, taskErrorCount, dictGet_dictSet_self]

theorem bumped_set (t : Dict) (k : ℕ) (m : ℤ) :
    dictSet (bumped t k) "_task_error_count" (.vInt m) =
      dictSet t "_task_error_count" (.vInt m) := by
  unfold bumped
  by_cases hk : k = 0
  · simp [hk]
  · simp [hk, dictSet_dictSet_self]

theorem worker_route_task_retry (maxR : ℤ) (t : Dict) (r : Option Value)
    (rs : RunState) (h : taskErrorCount t < maxR) :
    worker_route maxR t r .task_issue rs =
      { rs with
        queue := rs.queue ++
          [dictSet t "_task_error_count" (.vInt (taskErrorCount t + 1))]
        stats := { rs.stats with
          retried_tasks := rs.stats.retried_tasks + 1 } } := by
  simp [worker_route, h]

theorem worker_route_task_terminal (maxR : ℤ) (t : Dict) (r : Option Value)
    (rs : RunState) (h : ¬ taskErrorCount t < maxR) :
    worker_route maxR t r .task_issue rs =
      { rs with
        results := rs.results ++ [failureEntry t (taskErrorCount t)]
        doneIds := (match dictGet t "id" with
          | some v => addDone rs.doneIds v
          | none => rs.doneIds)
        stats := { rs.stats with
          failed_requests := rs.stats.failed_requests + 1
          total_requests := rs.stats.total_requests + 1 } } := by
  simp [worker_route, h]

theorem c1_run_aux (maxR : ℕ) (t : Dict)
    (ht : dictGet t "_task_error_count" = none) :
    ∀ (k : ℕ), k ≤ maxR → ∀ (m a : ℕ),
      run_worker (maxR : ℤ) false (fun _ => taskIssueEnv) (k + m) a
          ⟨[t], [], [], stats0, slot_init, 0⟩ =
        run_worker (maxR : ℤ) false (fun _ => taskIssueEnv) m (a + k)
          ⟨[bumped t k], [], [], ⟨0, 0, 0, k, k⟩, slot_init, 0⟩ := by
  intro k
  induction k with
  | zero =>
    intro _ m a
    simp [bumped, stats0]
  | succ j ih =>
    intro hk m a
    have hj : j ≤ maxR := Nat.le_of_succ_le hk
    have hstep : (j + 1) + m = j + (m + 1) := by omega
    rw [hstep, ih hj (m + 1) a]
    have hcnt : taskErrorCount (bumped t j) = (j : ℤ) :=
      taskErrorCount_bumped t ht j
    have hlt : taskErrorCount (bumped t j) < (maxR : ℤ) := by
      rw [hcnt]
      exact_mod_cast Nat.lt_of_succ_le hk
    have hroute := worker_route_task_retry (maxR : ℤ) (bumped t j) none
      ⟨[], [], [], ⟨0, 0, 0, j + 1, j⟩, slot_init, 0⟩ hlt
    simp only [run_worker, call_model_taskIssueEnv, hroute, hcnt]
    have hset : dictSet (bumped t j) "_task_error_count"
        (.vInt ((j : ℤ) + 1)) = bumped t (j + 1) := by
      rw [bumped_set]
      unfold bumped
      simp
    rw [hset]
    rfl

/-- C1: a task whose call attempts yield only task-kind failures follows
the bounded retry ladder: any TaskIssue routing with counter below
maxRetriesPerTask requeues the task with the counter incremented by one and
bumps retried_tasks; a TaskIssue routing with counter equal to
maxRetriesPerTask appends a ResultRecord with success=false,
failure_reason="task_error" and task_errors_attempted = maxRetriesPerTask
instead of requeuing; and a run fed only task-kind errors terminates with
exactly that one failure record after exactly maxRetriesPerTask + 1 call
attempts, of which maxRetriesPerTask were retries. -/
theorem c1_task_issue_terminal (maxR : ℕ) (t : Dict)
    (ht : dictGet t "_task_error_count" = none) :
    (∀ (t' : Dict) (rs : RunState), taskErrorCount t' < (maxR : ℤ) →
      worker_route (maxR : ℤ) t' none .task_issue rs =
        { rs with
          queue := rs.queue ++
            [dictSet t' "_task_error_count" (.vInt (taskErrorCount t' + 1))]
          stats := { rs.stats with
            retried_tasks := rs.stats.retried_tasks + 1 } }) ∧
    (∀ (t' : Dict) (rs : RunState), taskErrorCount t' = (maxR : ℤ) →
      worker_route (maxR : ℤ) t' none .task_issue rs =
        { rs with
          results := rs.results ++ [failureEntry t' (maxR : ℤ)]
          doneIds := (match dictGet t' "id" with
            | some v => addDone rs.doneIds v
            | none => rs.doneIds)
          stats := { rs.stats with
            failed_requests := rs.stats.failed_requests + 1
            total_requests := rs.stats.total_requests + 1 } }) ∧
    (only_task_issues_run maxR t).queue = [] ∧
    (only_task_issues_run maxR t).results =
      [failureEntry (bumped t maxR) (maxR : ℤ)] ∧
    (only_task_issues_run maxR t).stats.total_api_calls = maxR + 1 ∧
    (only_task_issues_run maxR t).stats.retried_tasks = maxR ∧
    (only_task_issues_run maxR t).stats.failed_requests = 1 ∧
    dictGet (failureEntry (bumped t maxR) (maxR : ℤ))
      "task_errors_attempted" = some (.vInt maxR) ∧
    dictGet (failureEntry (bumped t maxR) (maxR : ℤ)) "failure_reason" =
      some (.vStr "task_error") ∧
    dictGet (failureEntry (bumped t maxR) (maxR : ℤ)) "success" =
      some (.vBool false) := by
  have hterm : only_task_issues_run maxR t =
      ⟨[], [failureEntry (bumped t maxR) (maxR : ℤ)],
        (match dictGet (bumped t maxR) "id" with
          | some v => addDone [] v
          | none => []),
        ⟨1, 0, 1, maxR + 1, maxR⟩, slot_init, 0⟩ := by
    unfold only_task_issues_run
    rw [c1_run_aux maxR t ht maxR (le_refl maxR) 1 0]
    have hcnt : taskErrorCount (bumped t maxR) = (maxR : ℤ) :=
      taskErrorCount_bumped t ht maxR
    have hnlt : ¬ taskErrorCount (bumped t maxR) < (maxR : ℤ) := by
      rw [hcnt]
      exact lt_irrefl _
    have hroute := worker_route_task_terminal (maxR : ℤ) (bumped t maxR) none
      ⟨[], [], [], ⟨0, 0, 0, maxR + 1, maxR⟩, slot_init, 0⟩ hnlt
    simp only [run_worker, call_model_taskIssueEnv, hroute, hcnt]
    rfl
  refine ⟨?_, ?_, ?_, ?_, ?_, ?_, ?_, ?_, ?_, ?_⟩
  · intro t' rs h
    exact worker_route_task_retry (maxR : ℤ) t' none rs h
  · intro t' rs h
    have := worker_route_task_terminal (maxR : ℤ) t' none rs (by rw [h]; exact lt_irrefl _)
    rw [this, h]
  · rw [hterm]
  · rw [hterm]
  · rw [hterm]
  · rw [hterm]
  · rw [hterm]
  · exact failureEntry_attempted _ _
  · exact failureEntry_reason _ _
  · exact failureEntry_success _ _

/-- Witness for C1 with maxRetriesPerTask = 2 and a two-field task. -/
theorem c1_task_issue_terminal_witness :
    dictGet [("id", .vInt 5), ("prompt", .vStr "p")] "_task_error_count" =
      none ∧
    (only_task_issues_run 2 [("id", .vInt 5), ("prompt", .vStr "p")]).results =
      [failureEntry (bumped [("id", .vInt 5), ("prompt", .vStr "p")] 2)
        (2 : ℤ)] ∧
    (only_task_issues_run 2
      [("id", .vInt 5), ("prompt", .vStr "p")]).stats.total_api_calls = 3 :=
  ⟨by decide,
   (c1_task_issue_terminal 2 [("id", .vInt 5), ("prompt", .vStr "p")]
      (by decide)).2.2.2.1,
   (c1_task_issue_terminal 2 [("id", .vInt 5), ("prompt", .vStr "p")]
      (by decide)).2.2.2.2.1⟩

theorem prepare_task_id_isSome (ik pk : String) (i : ℕ) (t : TaskIn) :
    (dictGet (prepare_task ik pk i t) ik).isSome = true := by
  cases t with
  | txt s => simp [prepare_task, dictGet]
  | dict d =>
    simp only [prepare_task]
    by_cases h : dictContains d ik = true
    · rw [if_pos h, ← dictContains_eq_isSome]
      exact h
    · rw [if_neg (by simpa using h), dictGet_dictSet_self]
      rfl

theorem mem_prepare_list (ik pk : String) (done : List Value) :
    ∀ (l : List TaskIn) (n : ℕ) (d : Dict),
      d ∈ prepare_list ik pk done n l →
      (∃ j t0, l.get? j = some t0 ∧ d = prepare_task ik pk (n + j) t0) ∧
      ∃ v, dictGet d ik = some v ∧ v ∉ done := by
  intro l
  induction l with
  | nil =>
    intro n d hd
    simp [prepare_list] at hd
  | cons t ts ih =>
    intro n d hd
    unfold prepare_list at hd
    rw [List.mem_append] at hd
    rcases hd with hd | hd
    · by_cases hkeep : (match dictGet (prepare_task ik pk n t) ik with
          | some v => decide (v ∉ done)
          | none => true) = true
      · rw [if_pos hkeep] at hd
        simp only [List.mem_singleton] at hd
        subst hd
        refine ⟨⟨0, t, rfl, by simp⟩, ?_⟩
        have hs := prepare_task_id_isSome ik pk n t
        cases hv : dictGet (prepare_task ik pk n t) ik with
        | none => rw [hv] at hs; simp at hs
        | some v =>
          refine ⟨v, rfl, ?_⟩
          rw [hv] at hkeep
          simpa using hkeep
      · rw [if_neg hkeep] at hd
        simp at hd
    · obtain ⟨⟨j, t0, hget, hdef⟩, hv⟩ := ih (n + 1) d hd
      have hn : n + 1 + j = n + (j + 1) := by omega
      rw [hn] at hdef
      exact ⟨⟨j + 1, t0, by simpa using hget, hdef⟩, hv⟩

theorem worker_route_results_extend (maxR : ℤ) (t : Dict) (r : Option Value)
    (e : ErrorType) (rs : RunState) :
    ∃ l, (worker_route maxR t r e rs).results = rs.results ++ l := by
  cases e with
  | success => exact ⟨[successEntry t r], rfl⟩
  | key_issue => exact ⟨[], (List.append_nil _).symm⟩
  | skip => exact ⟨[], (List.append_nil _).symm⟩
  | task_issue =>
    by_cases h : taskErrorCount t < maxR
    · exact ⟨[], by simp [worker_route, h]⟩
    · exact ⟨[failureEntry t (taskErrorCount t)], by simp [worker_route, h]⟩

theorem run_worker_results_extend (maxR : ℤ) (pj : Bool) (envs : ℕ → CallEnv) :
    ∀ (fuel k : ℕ) (rs : RunState),
      ∃ l, (run_worker maxR pj envs fuel k rs).results = rs.results ++ l := by
  intro fuel
  induction fuel with
  | zero =>
    intro k rs
    exact ⟨[], (List.append_nil _).symm⟩
  | succ n ih =>
    intro k rs
    obtain ⟨q, res, dids, st, sl, ac⟩ := rs
    cases q with
    | nil => exact ⟨[], (List.append_nil _).symm⟩
    | cons t rest =>
      simp only [run_worker]
      obtain ⟨l1, hl1⟩ := worker_route_results_extend maxR t
        (call_model pj (envs k) sl st ac).response
        (call_model pj (envs k) sl st ac).etype
        ⟨rest, res, dids, (call_model pj (envs k) sl st ac).stats,
          (call_model pj (envs k) sl st ac).slot,
          (call_model pj (envs k) sl st ac).active⟩
      obtain ⟨l2, hl2⟩ := ih (k + 1) (worker_route maxR t
        (call_model pj (envs k) sl st ac).response
        (call_model pj (envs k) sl st ac).etype
        ⟨rest, res, dids, (call_model pj (envs k) sl st ac).stats,
          (call_model pj (envs k) sl st ac).slot,
          (call_model pj (envs k) sl st ac).active⟩)
      refine ⟨l1 ++ l2, ?_⟩
      rw [hl2, hl1]
      simp [List.append_assoc]

/-- C6: generate_batch seeds the queue only with submitted (prepared) tasks
whose id is not among the ids reconstructed from the loaded checkpoint, and
its return value is the full accumulated collection: the prior-checkpoint
records followed by the newly completed records; on the concrete scenario
with checkpoint ids \x7b1, 2\x7d and submitted ids \x7b1, 2, 3\x7d only
task 3 is attempted (one API call) and the final output holds all three
records. -/
theorem c6_resume_accumulate (id_key prompt_key : String) (parse_json : Bool)
    (maxR : ℤ) (envs : ℕ → CallEnv) (fuel : ℕ) (prior : List Dict)
    (tasks : List TaskIn) :
    (∀ d ∈ prepare_tasks id_key prompt_key (done_ids_of id_key prior) tasks,
      (∃ v, dictGet d id_key = some v ∧ v ∉ done_ids_of id_key prior) ∧
      (∃ i t0, tasks.get? i = some t0 ∧
        d = prepare_task id_key prompt_key i t0)) ∧
    (∃ newRecords,
      (generate_batch parse_json id_key prompt_key maxR envs fuel prior
        tasks).results = prior ++ newRecords) ∧
    (generate_batch false "id" "prompt" 5 (fun _ => okEnv) 5 priorExample
        tasksExample).results =
      priorExample ++ [[("id", .vInt 3), ("prompt", .vStr "p3"),
        ("result", .vStr "ok"), ("success", .vBool true)]] ∧
    (generate_batch false "id" "prompt" 5 (fun _ => okEnv) 5 priorExample
        tasksExample).stats.total_api_calls = 1 := by
  refine ⟨?_, ?_, by decide, by decide⟩
  · intro d hd
    obtain ⟨⟨j, t0, hget, hdef⟩, v, hv, hnv⟩ :=
      mem_prepare_list id_key prompt_key (done_ids_of id_key prior) tasks 0 d
        hd
    exact ⟨⟨v, hv, hnv⟩, ⟨j, t0, hget, by simpa using hdef⟩⟩
  · simp only [generate_batch]
    split
    · exact ⟨[], (List.append_nil _).symm⟩
    · obtain ⟨l, hl⟩ := run_worker_results_extend maxR parse_json envs fuel 0
        ⟨prepare_tasks id_key prompt_key (done_ids_of id_key prior) tasks,
          prior, done_ids_of id_key prior, stats0, slot_init, 0⟩
      exact ⟨l, hl⟩

/-- Witness for C6: task id 3 of the concrete scenario is seeded, its id is
new relative to the checkpoint, and it stems from the third submitted
task. -/
theorem c6_resume_accumulate_witness :
    (∃ v, dictGet [("id", .vInt 3), ("prompt", .vStr "p3")] "id" = some v ∧
      v ∉ done_ids_of "id" priorExample) ∧
    (∃ i t0, tasksExample.get? i = some t0 ∧
      [("id", .vInt 3), ("prompt", .vStr "p3")] =
        prepare_task "id" "prompt" i t0) :=
  (c6_resume_accumulate "id" "prompt" false 5 (fun _ => okEnv) 5 priorExample
    tasksExample).1 [("id", .vInt 3), ("prompt", .vStr "p3")] (by decide)

theorem idsOf_append (a b : List Dict) : idsOf (a ++ b) = idsOf a ++ idsOf b :=
  List.filterMap_append a b _

theorem idsOf_cons (t : Dict) (l : List Dict) :
    idsOf (t :: l) = (dictGet t "id").toList ++ idsOf l := by
  cases h : dictGet t "id" <;> simp [idsOf, List.filterMap_cons, h]

theorem idsOf_singleton (t : Dict) : idsOf [t] = (dictGet t "id").toList := by
  rw [idsOf_cons]
  simp [idsOf]

theorem successEntry_id (t : Dict) (r : Option Value) :
    dictGet (successEntry t r) "id" = dictGet t "id" :=
  successEntry_get t r "id" (by decide) (by decide) (by decide)

theorem failureEntry_id (t : Dict) (cnt : ℤ) :
    dictGet (failureEntry t cnt) "id" = dictGet t "id" :=
  failureEntry_get t cnt "id" (by decide) (by decide) (by decide) (by decide)
    (by decide)

theorem counterSet_id (t : Dict) (m : ℤ) :
    dictGet (dictSet t "_task_error_count" (.vInt m)) "id" = dictGet t "id" :=
  dictGet_dictSet_ne t _ "id" _ (by decide)

theorem perm_rotate (a b c : List Value) :
    List.Perm ((b ++ a) ++ c) (a ++ (b ++ c)) := by
  have h1 : List.Perm ((b ++ a) ++ c) ((a ++ b) ++ c) :=
    List.Perm.append_right c List.perm_append_comm
  have h2 : (a ++ b) ++ c = a ++ (b ++ c) := List.append_assoc a b c
  rw [h2] at h1
  exact h1

theorem perm_rotate' (a b c : List Value) :
    List.Perm (b ++ (c ++ a)) (a ++ (b ++ c)) := by
  rw [← List.append_assoc]
  exact List.perm_append_comm

theorem worker_route_ids_perm (maxR : ℤ) (t : Dict) (r : Option Value)
    (e : ErrorType) (rs : RunState) :
    List.Perm
      (idsOf (worker_route maxR t r e rs).queue ++
        idsOf (worker_route maxR t r e rs).results)
      ((dictGet t "id").toList ++ (idsOf rs.queue ++ idsOf rs.results)) := by
  cases e with
  | success =>
    show List.Perm
      (idsOf rs.queue ++ idsOf (rs.results ++ [successEntry t r])) _
    rw [idsOf_append, idsOf_singleton, successEntry_id]
    exact perm_rotate' _ _ _
  | skip =>
    show List.Perm (idsOf (rs.queue ++ [t]) ++ idsOf rs.results) _
    rw [idsOf_append, idsOf_singleton]
    exact perm_rotate _ _ _
  | key_issue =>
    show List.Perm (idsOf (rs.queue ++ [t]) ++ idsOf rs.results) _
    rw [idsOf_append, idsOf_singleton]
    exact perm_rotate _ _ _
  | task_issue =>
    by_cases h : taskErrorCount t < maxR
    · rw [worker_route_task_retry maxR t r rs h]
      show List.Perm (idsOf (rs.queue ++
        [dictSet t "_task_error_count" (.vInt (taskErrorCount t + 1))]) ++
        idsOf rs.results) _
      rw [idsOf_append, idsOf_singleton, counterSet_id]
      exact perm_rotate _ _ _
    · rw [worker_route_task_terminal maxR t r rs h]
      show List.Perm
        (idsOf rs.queue ++
          idsOf (rs.results ++ [failureEntry t (taskErrorCount t)])) _
      rw [idsOf_append, idsOf_singleton, failureEntry_id]
      exact perm_rotate' _ _ _

theorem run_worker_ids_perm (maxR : ℤ) (pj : Bool) (envs : ℕ → CallEnv) :
    ∀ (fuel k : ℕ) (rs : RunState),
      List.Perm
        (idsOf (run_worker maxR pj envs fuel k rs).queue ++
          idsOf (run_worker maxR pj envs fuel k rs).results)
        (idsOf rs.queue ++ idsOf rs.results) := by
  intro fuel
  induction fuel with
  | zero => intro k rs; exact List.Perm.refl _
  | succ n ih =>
    intro k rs
    obtain ⟨q, res, dids, st, sl, ac⟩ := rs
    cases q with
    | nil => exact List.Perm.refl _
    | cons t rest =>
      simp only [run_worker]
      refine (ih (k + 1) _).trans ?_
      refine (worker_route_ids_perm maxR t _ _ _).trans ?_
      rw [idsOf_cons, List.append_assoc]

/-- C7 counterexample: two submitted tasks with the same id 7 and no
checkpoint both complete, so the final output carries two ResultRecords
with id 7 — the claim that no task id appears twice fails on duplicate
input ids, which the code does not deduplicate. -/
theorem c7_counterexample :
    idsOf (generate_batch false "id" "prompt" 5 (fun _ => okEnv) 5 []
      [.dict [("id", .vInt 7), ("prompt", .vStr "a")],
       .dict [("id", .vInt 7), ("prompt", .vStr "b")]]).results =
      [.vInt 7, .vInt 7] ∧
    ¬ (idsOf (generate_batch false "id" "prompt" 5 (fun _ => okEnv) 5 []
      [.dict [("id", .vInt 7), ("prompt", .vStr "a")],
       .dict [("id", .vInt 7), ("prompt", .vStr "b")]]).results).Nodup := by
  decide

/-- C7 amended: provided the ids of the seeded tasks together with the ids
of the prior-checkpoint records contain no duplicates, the final result
list has at most one ResultRecord per task id; each Success routing
appends exactly one record, carrying the task's id. -/
theorem c7_unique_ids (parse_json : Bool) (prompt_key : String) (maxR : ℤ)
    (envs : ℕ → CallEnv) (fuel : ℕ) (prior : List Dict) (tasks : List TaskIn)
    (h : (idsOf (prepare_tasks "id" prompt_key (done_ids_of "id" prior) tasks)
        ++ idsOf prior).Nodup) :
    (idsOf (generate_batch parse_json "id" prompt_key maxR envs fuel prior
      tasks).results).Nodup ∧
    (∀ (t : Dict) (r : Option Value) (rs : RunState),
      (worker_route maxR t r .success rs).results =
        rs.results ++ [successEntry t r] ∧
      dictGet (successEntry t r) "id" = dictGet t "id") := by
  refine ⟨?_, fun t r rs => ⟨rfl, successEntry_id t r⟩⟩
  simp only [generate_batch]
  split
  · exact List.Nodup.of_append_right h
  · have hperm := run_worker_ids_perm maxR parse_json envs fuel 0
      ⟨prepare_tasks "id" prompt_key (done_ids_of "id" prior) tasks, prior,
        done_ids_of "id" prior, stats0, slot_init, 0⟩
    exact List.Nodup.of_append_right ((hperm.nodup_iff).mpr h)

/-- Witness for C7 on a single fresh task with id 1. -/
theorem c7_unique_ids_witness :
    (idsOf (prepare_tasks "id" "prompt" (done_ids_of "id" ([] : List Dict))
        [.dict [("id", .vInt 1), ("prompt", .vStr "a")]]) ++
      idsOf ([] : List Dict)).Nodup ∧
    (idsOf (generate_batch false "id" "prompt" 5 (fun _ => okEnv) 5 []
      [.dict [("id", .vInt 1), ("prompt", .vStr "a")]]).results).Nodup :=
  ⟨by decide,
   (c7_unique_ids false "prompt" 5 (fun _ => okEnv) 5 []
      [.dict [("id", .vInt 1), ("prompt", .vStr "a")]] (by decide)).1⟩

end GeminiKeyRotator
